import Mathlib

/-!
Verification development for the TeacherOpinion repository: a React
frontend and a Gemini-backed opinion-generation backend. Frontend
definitions are shallow embeddings of `frontend/src` (App.tsx,
StudentInfoForm, ModelSelector, api.ts, clipboard.ts); the backend
core (model resolution, response parsing, orchestration) is not in
the sources available here and is modelled from the specification
where so stated in doc comments.
-/

namespace TeachingOpinion

/-! ## Frontend data model (frontend/src/types.ts) -/

/-- `StudentInfo` from `types.ts`: the form state held in `App.tsx`. -/
structure StudentInfo where
  name : String
  goodSubjects : List String
  weakSubjects : List String
  personality : List String
  characteristics : String
  targetLength : Int
  modelName : String
deriving DecidableEq, Repr

/-- The initial form state from `App.tsx` (`useState<StudentInfo>`), also
used by `handleReset`. -/
def initialStudentInfo : StudentInfo :=
  { name := ""
    goodSubjects := []
    weakSubjects := []
    personality := []
    characteristics := ""
    targetLength := 75
    modelName := "gemini-2.5-flash" }

/-! ## Input change handlers (StudentInfoForm.tsx) -/

/-- JavaScript `s.slice(0, n)`: the first `n` characters of `s` (the
source strings are Korean BMP text, one UTF-16 unit per character, so
character count models the JS unit count faithfully). -/
def jsSlice (s : String) (n : Nat) : String := String.mk (s.data.take n)

/-- The `name-input` onChange handler: `e.target.value.slice(0, 5)`. -/
def nameOnChange (raw : String) : String := jsSlice raw 5

/-- The `characteristics-input` onChange handler:
`e.target.value.slice(0, 40)`. -/
def characteristicsOnChange (raw : String) : String := jsSlice raw 40

/-- Whitespace as consumed by `parseInt` / ignored by trimming. -/
def isSpaceChar (c : Char) : Bool :=
  c = ' ' ∨ c = '\t' ∨ c = '\n' ∨ c = '\r'

/-- Drop leading whitespace from a character list. -/
def skipWs : List Char → List Char
  | [] => []
  | c :: cs => if isSpaceChar c then skipWs cs else c :: cs

/-- JavaScript `s.trim()` (and Python `str.strip()`) on the whitespace
characters in play: drop leading and trailing whitespace. Defined by
structural recursion so it evaluates on concrete inputs. -/
def trimString (s : String) : String :=
  String.mk ((skipWs (skipWs s.data).reverse).reverse)

/-- Split a string on newline characters (structurally recursive version
of splitting on `"\n"`). -/
def splitLinesAux (cur : List Char) : List Char → List String
  | [] => [String.mk cur.reverse]
  | c :: cs =>
    if c = '\n' then String.mk cur.reverse :: splitLinesAux [] cs
    else splitLinesAux (c :: cur) cs

/-- Split a string into its newline-separated lines. -/
def splitLines (s : String) : List String := splitLinesAux [] s.data

/-- Split a character list into its maximal leading run of decimal digits
and the remainder. -/
def takeDigits : List Char → List Char × List Char
  | [] => ([], [])
  | c :: cs =>
    if c.isDigit then
      let p := takeDigits cs
      (c :: p.1, p.2)
    else ([], c :: cs)

/-- Numeric value of a digit run. -/
def digitsVal (ds : List Char) : Nat :=
  ds.foldl (fun acc c => acc * 10 + (c.toNat - '0'.toNat)) 0

/-- JavaScript `parseInt(s)` on the values a `type="number"` input can
hold (a decimal numeral string or free text): skip leading whitespace,
read an optional sign and the longest leading digit run; `none` models
`NaN` (no digits found). -/
def parseIntJS (s : String) : Option Int :=
  let cs := skipWs s.data
  match cs with
  | '-' :: rest =>
    let p := takeDigits rest
    if p.1 = [] then none else some (-(digitsVal p.1 : Int))
  | '+' :: rest =>
    let p := takeDigits rest
    if p.1 = [] then none else some ((digitsVal p.1 : Int))
  | rest =>
    let p := takeDigits rest
    if p.1 = [] then none else some ((digitsVal p.1 : Int))

/-- The `target-length-input` onChange handler from `StudentInfoForm.tsx`:
`const value = parseInt(e.target.value) || 75;`
`const clampedValue = Math.min(Math.max(value, 50), 100)`.
JavaScript `||` treats both `NaN` and `0` as falsy. -/
def targetLengthOnChange (raw : String) : Int :=
  let value : Int :=
    match parseIntJS raw with
    | none => 75
    | some v => if v = 0 then 75 else v
  min (max value 50) 100

/-- `toggleArrayItem` from `StudentInfoForm.tsx`: remove the item if
present, else append it. -/
def toggleArrayItem (array : List String) (item : String) : List String :=
  if array.contains item then array.filter (fun i => i != item)
  else array ++ [item]

/-! ## The form state machine: every way the UI mutates `StudentInfo` -/

/-- One user-visible mutation of the form state, each constructor one
handler in `StudentInfoForm.tsx` / `App.tsx`. -/
inductive FormOp where
  | setName (raw : String)
  | setCharacteristics (raw : String)
  | setTargetLength (raw : String)
  | toggleGood (subject : String)
  | toggleWeak (subject : String)
  | togglePersonality (trait : String)
  | resetGood
  | resetWeak
  | resetPersonality
  | setModel (modelName : String)
  | resetForm

/-- The state transition of each handler. `toggleGood`/`toggleWeak` are
the two branches of `handleSubjectToggle`; `resetForm` is `handleReset`
in `App.tsx`. -/
def step (s : StudentInfo) : FormOp → StudentInfo
  | .setName raw => { s with name := nameOnChange raw }
  | .setCharacteristics raw =>
      { s with characteristics := characteristicsOnChange raw }
  | .setTargetLength raw => { s with targetLength := targetLengthOnChange raw }
  | .toggleGood subject =>
      { s with goodSubjects := toggleArrayItem s.goodSubjects subject
               weakSubjects := s.weakSubjects.filter (fun x => x != subject) }
  | .toggleWeak subject =>
      { s with weakSubjects := toggleArrayItem s.weakSubjects subject
               goodSubjects := s.goodSubjects.filter (fun x => x != subject) }
  | .togglePersonality trait =>
      { s with personality := toggleArrayItem s.personality trait }
  | .resetGood => { s with goodSubjects := [] }
  | .resetWeak => { s with weakSubjects := [] }
  | .resetPersonality => { s with personality := [] }
  | .setModel m => { s with modelName := m }
  | .resetForm => initialStudentInfo

/-- The form states the UI can reach from the initial state. -/
inductive Reachable : StudentInfo → Prop
  | init : Reachable initialStudentInfo
  | next {s : StudentInfo} (op : FormOp) : Reachable s → Reachable (step s op)

/-! ## handleGenerate (App.tsx) -/

/-- The JSON body `App.tsx` posts to `/generate-opinions`. -/
structure GeneratePayload where
  name : Option String
  good_subjects : List String
  weak_subjects : List String
  personality : List String
  characteristics : Option String
  target_length : Int
  model_name : String
deriving DecidableEq, Repr

/-- JavaScript `s || null` on a string: `null` when the string is empty. -/
def orNull (s : String) : Option String := if s = "" then none else some s

/-- The `hasInput` check at the top of `handleGenerate`. -/
def hasInput (i : StudentInfo) : Bool :=
  (trimString i.name != "") ||
  decide (i.goodSubjects.length > 0) ||
  decide (i.weakSubjects.length > 0) ||
  decide (i.personality.length > 0) ||
  (trimString i.characteristics != "")

/-- The observable outcome of one `handleGenerate` invocation: either the
validation error is set and no request goes out, or a POST is issued. -/
inductive GenerateAction where
  | validationError (msg : String)
  | postRequest (path : String) (payload : GeneratePayload)
deriving DecidableEq, Repr

/-- The validation message set by `handleGenerate` when no field is
filled in. -/
def noInputMsg : String := "최소 하나의 항목은 입력해야 합니다."

/-- `handleGenerate` from `App.tsx`, up to the point the request leaves:
if no field is populated it sets the validation error and returns;
otherwise it posts the payload built from the current form state. -/
def handleGenerate (i : StudentInfo) : GenerateAction :=
  if hasInput i then
    .postRequest "/generate-opinions"
      { name := orNull (trimString i.name)
        good_subjects := i.goodSubjects
        weak_subjects := i.weakSubjects
        personality := i.personality
        characteristics := orNull (trimString i.characteristics)
        target_length := i.targetLength
        model_name := i.modelName }
  else .validationError noInputMsg

/-! ## ModelSelector (components/ModelSelector.tsx) -/

/-- A catalog entry as both the backend and `ModelSelector.tsx` shape it. -/
structure ModelDescriptor where
  name : String
  fullName : String
  displayName : String
deriving DecidableEq, Repr

/-- The static fallback list hard-coded in `ModelSelector.tsx`. -/
def fallbackModels : List ModelDescriptor :=
  [ { name := "gemini-2.5-flash", fullName := "models/gemini-2.5-flash",
      displayName := "Gemini 2.5 Flash (빠름 · 권장)" },
    { name := "gemini-2.5-pro", fullName := "models/gemini-2.5-pro",
      displayName := "Gemini 2.5 Pro (고품질)" },
    { name := "gemini-2.5-flash-lite", fullName := "models/gemini-2.5-flash-lite",
      displayName := "Gemini 2.5 Flash Lite (경량)" } ]

/-- The component state `fetchModels` leaves behind. -/
structure SelectorState where
  models : List ModelDescriptor
  error : Option String
  isLoading : Bool
deriving DecidableEq, Repr

/-- `fetchModels` from `ModelSelector.tsx`, as a function of the outcome
of `api.get('/available-models')`: on success the reported list is stored
and the error cleared; on failure the static fallback list is stored and
the error message kept for the degraded-mode notice. -/
def fetchModels (outcome : Except String (List ModelDescriptor)) : SelectorState :=
  match outcome with
  | .ok ms => { models := ms, error := none, isLoading := false }
  | .error msg => { models := fallbackModels, error := some msg, isLoading := false }

/-! ## The shared axios client (utils/api.ts) -/

/-- The configuration `axios.create` receives in `utils/api.ts`. -/
structure AxiosConfig where
  baseURL : String
  timeoutMs : Nat
  contentType : String
deriving DecidableEq, Repr

/-- The shared instance's configuration: base `/api`, 60000 ms timeout. -/
def apiConfig : AxiosConfig :=
  { baseURL := "/api", timeoutMs := 60000, contentType := "application/json" }

/-- Per-request effective timeout: no call site in the repository passes a
per-request override, so every request uses the instance value. -/
def requestTimeoutMs (_path : String) : Nat := apiConfig.timeoutMs

/-! ## The response interceptor (utils/api.ts) -/

/-- The parts of a failed HTTP response the interceptor reads:
`data?.detail` (absent `data` and absent `detail` both model as `none`)
and `statusText`. -/
structure ErrorResponse where
  detail : Option String
  statusText : String
deriving DecidableEq, Repr

/-- The axios error object: `response` is present when the server
answered; `hasRequest` when a request went out but nothing came back. -/
structure RequestError where
  response : Option ErrorResponse
  hasRequest : Bool
deriving DecidableEq, Repr

/-- Fixed interceptor message for a failed response with no usable
`detail` or `statusText`. -/
def genericErrorMsg : String := "요청 처리 중 오류가 발생했습니다."

/-- Fixed interceptor message when no response arrived. -/
def connectionErrorMsg : String := "서버에 연결할 수 없습니다. 네트워크를 확인해주세요."

/-- Fixed interceptor message when the request could not even be set up. -/
def setupErrorMsg : String := "요청 설정 중 오류가 발생했습니다."

/-- JavaScript `a || b` on strings: the empty string is falsy. -/
def jsOr (a b : String) : String := if a = "" then b else a

/-- The response interceptor's error branch from `utils/api.ts`: the
message of the `Error` it rejects with. `detail.getD ""` reflects that an
absent `detail` (`undefined`) and an empty one take the same `||` branch. -/
def interceptError (e : RequestError) : String :=
  match e.response with
  | some r => jsOr (r.detail.getD "") (jsOr r.statusText genericErrorMsg)
  | none => if e.hasRequest then connectionErrorMsg else setupErrorMsg

/-! ## copyToClipboard (utils/clipboard.ts) -/

/-- The browser facts `copyToClipboard` can observe: whether the modern
Clipboard API exists, whether its `writeText` promise resolves, and
whether `document.execCommand('copy')` throws or what it returns. -/
structure ClipboardEnv where
  clipboardApiAvailable : Bool
  writeTextSucceeds : Bool
  execCommandThrows : Bool
  execCommandReturns : Bool
deriving DecidableEq, Repr

/-- The outer try-block of `copyToClipboard`, with the number of
textareas currently appended to `document.body` threaded through; a
thrown error carries that count at the throw point. On the Clipboard-API
path a rejected `writeText` throws before any textarea exists; on the
fallback path the inner try/catch removes the textarea in both its
branches before returning. -/
def copyAttempt (env : ClipboardEnv) : Except Nat (Bool × Nat) :=
  if env.clipboardApiAvailable then
    if env.writeTextSucceeds then .ok (true, 0)
    else .error 0
  else
    let appended := 1
    if env.execCommandThrows then .ok (false, appended - 1)
    else .ok (env.execCommandReturns, appended - 1)

/-- `copyToClipboard` from `utils/clipboard.ts`: the outer catch turns
any escaped error into a `false` result, so the promise always resolves
to a boolean. Returns the result and the number of leaked textareas. -/
def copyToClipboard (env : ClipboardEnv) : Bool × Nat :=
  match copyAttempt env with
  | .ok r => r
  | .error n => (false, n)

/-! ## Backend core (modelled from the spec)

The backend sources (`backend/app/services/gemini_service.py`,
`backend/app/api/routes.py`) are not among the files available here —
only their documentation is. The definitions below are therefore
modelled from the specification, as their doc comments state. -/

/-- The typed failures of the opinion-generation core (spec §7). -/
inductive ProviderErrorKind where
  | transient
  | policy
  | quota
deriving DecidableEq, Repr

/-- One typed error of the core pipeline; `parseError` retains the raw
provider text for diagnostics only. -/
inductive CoreError where
  | modelUnavailable
  | providerError (kind : ProviderErrorKind)
  | parseError (raw : String)
deriving DecidableEq, Repr

/-- The fixed preferred flash-tier model identifier. -/
def flashModelName : String := "gemini-2.5-flash"

/-- The fixed secondary pro-tier model identifier. -/
def proModelName : String := "gemini-2.5-pro"

/-- Modelled from the spec: `ModelResolver.resolve` of the missing
`gemini_service.py` (§4.2, and the fallback order documented in the
repository: requested model → gemini-2.5-flash → gemini-2.5-pro → first
available model; empty catalog fails with `ModelUnavailable`). -/
def resolve (requested : String) (snapshot : List ModelDescriptor) :
    Except CoreError ModelDescriptor :=
  match snapshot.find? (fun m => m.name == requested) with
  | some m => .ok m
  | none =>
    match snapshot.find? (fun m => m.name == flashModelName) with
    | some m => .ok m
    | none =>
      match snapshot.find? (fun m => m.name == proModelName) with
      | some m => .ok m
      | none =>
        match snapshot with
        | [] => .error .modelUnavailable
        | m :: _ => .ok m

/-- The claim's own words for the resolution order, written independently
as a first-match-wins chain, to compare with `resolve`: the descriptor
matching the requested name, else the flash-tier model, else the pro-tier
model, else the first descriptor of the snapshot. -/
def resolveExpected (requested : String) (snapshot : List ModelDescriptor) :
    Option ModelDescriptor :=
  (snapshot.find? (fun m => m.name == requested)).orElse fun _ =>
    (snapshot.find? (fun m => m.name == flashModelName)).orElse fun _ =>
      (snapshot.find? (fun m => m.name == proModelName)).orElse fun _ =>
        snapshot.head?

/-! ### Response parser tiers (spec §4.5) -/

/-- Read a JSON string body after the opening quote: returns the decoded
characters and the remainder after the closing quote; a backslash escapes
the next character (`n`, `t`, `r` decode to control characters). -/
def parseStringBody : List Char → Option (List Char × List Char)
  | [] => none
  | c :: cs =>
    if c = '"' then some ([], cs)
    else if c = '\\' then
      match cs with
      | [] => none
      | d :: ds =>
        (parseStringBody ds).map fun p =>
          (((if d = 'n' then '\n' else if d = 't' then '\t'
             else if d = 'r' then '\r' else d)) :: p.1, p.2)
    else (parseStringBody cs).map fun p => (c :: p.1, p.2)

/-- Parse the items of a JSON array of strings, after the opening `[` and
given that the array is non-empty; fuel bounds the recursion by the input
length. Returns the strings and the remainder after the closing `]`. -/
def parseArrayItems : Nat → List Char → Option (List String × List Char)
  | 0, _ => none
  | fuel + 1, cs =>
    match skipWs cs with
    | '"' :: rest =>
      match parseStringBody rest with
      | none => none
      | some (body, rest2) =>
        match skipWs rest2 with
        | ',' :: rest3 =>
          (parseArrayItems fuel rest3).map fun p =>
            (String.mk body :: p.1, p.2)
        | ']' :: rest3 => some ([String.mk body], rest3)
        | _ => none
    | _ => none

/-- Parse a complete JSON array of strings starting at `[`. -/
def parseStrArray (cs : List Char) : Option (List String × List Char) :=
  match skipWs cs with
  | '[' :: rest =>
    match skipWs rest with
    | ']' :: rest2 => some ([], rest2)
    | _ => parseArrayItems (rest.length + 1) rest
  | _ => none

/-- Modelled from the spec: tier 1, the structured parse of the missing
`gemini_service.py` (§4.5.1) — parse the raw text as a data document,
accepting either a bare array of strings or an object exposing an
`"opinions"` array, with nothing but whitespace allowed around the
document. -/
def tierStructured (raw : String) : Option (List String) :=
  match skipWs raw.data with
  | '[' :: rest =>
    match parseStrArray ('[' :: rest) with
    | some (items, rest2) => if skipWs rest2 = [] then some items else none
    | none => none
  | '{' :: rest =>
    match skipWs rest with
    | '"' :: rest2 =>
      match parseStringBody rest2 with
      | some (key, rest3) =>
        if String.mk key = "opinions" then
          match skipWs rest3 with
          | ':' :: rest4 =>
            match parseStrArray rest4 with
            | some (items, rest5) =>
              match skipWs rest5 with
              | '}' :: rest6 => if skipWs rest6 = [] then some items else none
              | _ => none
            | none => none
          | _ => none
        else none
      | none => none
    | _ => none
  | _ => none

/-- Recognise a numbered-list line: after trimming, an integer label, a
separator (period, colon, or closing parenthesis), then non-empty text;
returns the label and the trimmed body. -/
def numberedLine (line : String) : Option (Nat × String) :=
  let p := takeDigits (trimString line).data
  match p with
  | ([], _) => none
  | (ds, rest) =>
    match rest with
    | [] => none
    | sep :: body =>
      if sep = '.' ∨ sep = ':' ∨ sep = ')' then
        let b := trimString (String.mk body)
        if b = "" then none else some (digitsVal ds, b)
      else none

/-- Modelled from the spec: tier 2, numbered-list extraction (§4.5.2) —
scan line by line, collect the bodies of label-separator-text lines in
label order, succeed only with exactly five. -/
def tierNumbered (raw : String) : Option (List String) :=
  let pairs := (splitLines raw).filterMap numberedLine
  let sorted := pairs.insertionSort (fun a b => a.1 ≤ b.1)
  if sorted.length = 5 then some (sorted.map (fun p => p.2)) else none

/-- Collect the substrings between matching double quotation marks, in
order of appearance; an unmatched final quote contributes nothing. -/
def splitQuotes (inside : Bool) (cur : List Char) : List Char → List String
  | [] => []
  | c :: cs =>
    if c = '"' then
      if inside then String.mk cur.reverse :: splitQuotes false [] cs
      else splitQuotes true [] cs
    else
      if inside then splitQuotes inside (c :: cur) cs
      else splitQuotes inside cur cs

/-- Modelled from the spec: tier 3, quoted-string extraction (§4.5.3) —
collect up to five quoted substrings in order of appearance, succeed only
with exactly five. -/
def tierQuoted (raw : String) : Option (List String) :=
  let qs := (splitQuotes false [] raw.data).take 5
  if qs.length = 5 then some qs else none

/-- Modelled from the spec: tier 4, the line-split fallback (§4.5.4) —
split on newlines, drop blank and whitespace-only lines, trim the rest,
take the first five; fail when fewer than five non-blank lines exist. -/
def tierLines (raw : String) : Option (List String) :=
  let ls := ((splitLines raw).map trimString).filter (fun l => l != "")
  if 5 ≤ ls.length then some (ls.take 5) else none

/-- The chain's win condition (§4.5): a tier's output wins only when it
is exactly five non-empty trimmed strings; the accepted value is that
trimmed output. -/
def acceptFive (l : List String) : Option (List String) :=
  if (l.map trimString).length = 5 ∧ ∀ s ∈ l.map trimString, s ≠ "" then
    some (l.map trimString)
  else none

/-- Run one parsing tier and apply the chain's win condition. -/
def runTier (tier : String → Option (List String)) (raw : String) :
    Option (List String) :=
  (tier raw).bind acceptFive

/-- Modelled from the spec: `ResponseParser.parse` of the missing
`gemini_service.py` (§4.5) — the ordered chain of four strategies, first
winner taken, `ParseError` carrying the raw text when every tier fails. -/
def parse (raw : String) : Except CoreError (List String) :=
  match runTier tierStructured raw with
  | some l => .ok l
  | none =>
    match runTier tierNumbered raw with
    | some l => .ok l
    | none =>
      match runTier tierQuoted raw with
      | some l => .ok l
      | none =>
        match runTier tierLines raw with
        | some l => .ok l
        | none => .error (.parseError raw)

/-! ### Prompt building and orchestration (spec §4.3, §4.4, §4.6) -/

/-- The student attributes the backend request schema carries. -/
structure StudentAttributes where
  name : Option String
  goodSubjects : List String
  weakSubjects : List String
  personality : List String
  characteristics : Option String
  targetLength : Int
deriving DecidableEq, Repr

/-- Comma-join a list of attribute strings, or the "none specified"
placeholder when empty. -/
def joinOrPlaceholder (l : List String) : String :=
  if l = [] then "없음" else String.intercalate ", " l

/-- Modelled from the spec: `PromptBuilder.build` of the missing prompt
template (§4.3) — a fixed template with name-or-placeholder, comma-joined
subject and personality lists, characteristics omitted when absent, and
the instruction to produce exactly five comments of about the target
length in a JSON string array. -/
def buildPrompt (a : StudentAttributes) : String :=
  "학생 이름: " ++ a.name.getD "미지정" ++
  "\n잘하는 과목: " ++ joinOrPlaceholder a.goodSubjects ++
  "\n부족한 과목: " ++ joinOrPlaceholder a.weakSubjects ++
  "\n성격: " ++ joinOrPlaceholder a.personality ++
  (match a.characteristics with
   | some c => "\n특징: " ++ c
   | none => "") ++
  "\n각 의견을 약 " ++ toString a.targetLength ++
  "자 내외로, 정확히 5개의 평가 의견을 JSON 문자열 배열로만 출력하세요."

/-- Modelled from the spec: the `GenerationClient` retry policy (§4.4) —
the provider is a function of the attempt number; one extra attempt is
made after a transient failure, none after a policy or quota failure. -/
def generateWithRetry (provider : Nat → Except ProviderErrorKind String) :
    Except ProviderErrorKind String :=
  match provider 0 with
  | .ok raw => .ok raw
  | .error .transient => provider 1
  | .error k => .error k

/-- Modelled from the spec: `OpinionService.generateOpinions` (§4.6) —
resolve the effective model against the catalog, build the prompt, call
the provider with retry, parse the raw text; any step's failure
short-circuits to that step's typed error with no partial result. -/
def generateOpinions (catalog : List ModelDescriptor) (requested : String)
    (attrs : StudentAttributes)
    (provider : String → String → Nat → Except ProviderErrorKind String) :
    Except CoreError (List String) :=
  match resolve requested catalog with
  | .error e => .error e
  | .ok m =>
    match generateWithRetry (provider m.name (buildPrompt attrs)) with
    | .error k => .error (.providerError k)
    | .ok raw => parse raw

/-! ## Helper lemmas -/

/-- Membership after a toggle comes from the old list or is the toggled
item itself. -/
theorem mem_toggleArrayItem {a : List String} {i x : String}
    (h : x ∈ toggleArrayItem a i) : x ∈ a ∨ x = i := by
  unfold toggleArrayItem at h
  split at h
  · exact Or.inl (List.mem_filter.mp h).1
  · rcases List.mem_append.mp h with h' | h'
    · exact Or.inl h'
    · exact Or.inr (List.mem_singleton.mp h')

/-- The toggled item never survives the other list's filter. -/
theorem not_mem_filter_self (a : List String) (i : String) :
    i ∉ a.filter (fun x => x != i) := by
  intro h
  exact absurd rfl (bne_iff_ne.mp (List.mem_filter.mp h).2)

/-- The good and weak subject lists of a form state share no element. -/
def DisjointSubjects (s : StudentInfo) : Prop :=
  ∀ x ∈ s.goodSubjects, x ∉ s.weakSubjects

/-- Every handler preserves disjointness of the two subject lists. -/
theorem step_preserves_disjoint (s : StudentInfo) (op : FormOp)
    (h : DisjointSubjects s) : DisjointSubjects (step s op) := by
  cases op with
  | toggleGood subject =>
    intro x hx hw
    rcases List.mem_filter.mp hw with ⟨hw', hne⟩
    rcases mem_toggleArrayItem hx with hg | rfl
    · exact h x hg hw'
    · exact absurd rfl (bne_iff_ne.mp hne)
  | toggleWeak subject =>
    intro x hx hw
    rcases List.mem_filter.mp hx with ⟨hg', hne⟩
    rcases mem_toggleArrayItem hw with hw' | rfl
    · exact h x hg' hw'
    · exact absurd rfl (bne_iff_ne.mp hne)
  | togglePersonality trait => exact h
  | setName raw => exact h
  | setCharacteristics raw => exact h
  | setTargetLength raw => exact h
  | resetGood => intro x hx; cases hx
  | resetWeak => intro x _ hw; cases hw
  | resetPersonality => exact h
  | setModel m => exact h
  | resetForm => intro x hx; cases hx

/-- Disjointness holds in every reachable form state. -/
theorem reachable_disjoint {s : StudentInfo} (h : Reachable s) :
    DisjointSubjects s := by
  induction h with
  | init => intro x hx; cases hx
  | next op _ ih => exact step_preserves_disjoint _ op ih

/-- A JavaScript slice never exceeds its bound. -/
theorem jsSlice_length_le (s : String) (n : Nat) : (jsSlice s n).length ≤ n := by
  show (s.data.take n).length ≤ n
  exact List.length_take_le n s.data

/-- Every handler preserves the two length caps. -/
theorem step_preserves_caps (s : StudentInfo) (op : FormOp)
    (h : s.name.length ≤ 5 ∧ s.characteristics.length ≤ 40) :
    (step s op).name.length ≤ 5 ∧ (step s op).characteristics.length ≤ 40 := by
  cases op with
  | setName raw => exact ⟨jsSlice_length_le raw 5, h.2⟩
  | setCharacteristics raw => exact ⟨h.1, jsSlice_length_le raw 40⟩
  | setTargetLength raw => exact h
  | toggleGood subject => exact h
  | toggleWeak subject => exact h
  | togglePersonality trait => exact h
  | resetGood => exact h
  | resetWeak => exact h
  | resetPersonality => exact h
  | setModel m => exact h
  | resetForm =>
    show initialStudentInfo.name.length ≤ 5 ∧
      initialStudentInfo.characteristics.length ≤ 40
    exact ⟨by decide, by decide⟩

/-! ## Claim theorems -/

/-- C5: The sets goodSubjects and weakSubjects are disjoint after every
subject-toggle operation: toggling a subject as good removes it from
weakSubjects and toggling it as weak removes it from goodSubjects, so in
every reachable StudentInfo state their intersection is empty. -/
theorem subjects_disjoint :
    (∀ s : StudentInfo, Reachable s → ∀ x ∈ s.goodSubjects, x ∉ s.weakSubjects) ∧
    (∀ (s : StudentInfo) (subject : String),
      subject ∉ (step s (.toggleGood subject)).weakSubjects ∧
      subject ∉ (step s (.toggleWeak subject)).goodSubjects) := by
  constructor
  · intro s h
    exact reachable_disjoint h
  · intro s subject
    exact ⟨not_mem_filter_self s.weakSubjects subject,
           not_mem_filter_self s.goodSubjects subject⟩

/-- Witness for C5 at a concrete reachable state: after toggling 수학 as
a good subject from the initial state, 수학 is not a weak subject. -/
theorem subjects_disjoint_witness :
    "수학" ∉ (step initialStudentInfo (.toggleGood "수학")).weakSubjects :=
  subjects_disjoint.1 _ (Reachable.next _ Reachable.init) "수학" (by decide)

/-- C6: The stored name holds at most 5 characters and the stored
characteristics at most 40: each change handler truncates its raw input
to the bound, and the caps hold in every reachable StudentInfo state. -/
theorem length_caps :
    (∀ s : StudentInfo, Reachable s →
      s.name.length ≤ 5 ∧ s.characteristics.length ≤ 40) ∧
    (∀ raw : String,
      (nameOnChange raw).length ≤ 5 ∧ (characteristicsOnChange raw).length ≤ 40) := by
  constructor
  · intro s h
    induction h with
    | init => exact ⟨by decide, by decide⟩
    | next op _ ih => exact step_preserves_caps _ op ih
  · intro raw
    exact ⟨jsSlice_length_le raw 5, jsSlice_length_le raw 40⟩

/-- Witness for C6: the caps hold of the state reached by typing a
7-character name into the fresh form. -/
theorem length_caps_witness :
    (step initialStudentInfo (.setName "가나다라마바사")).name.length ≤ 5 ∧
    (step initialStudentInfo (.setName "가나다라마바사")).characteristics.length ≤ 40 :=
  length_caps.1 _ (Reachable.next _ Reachable.init)

/-- C3: When name (trimmed), characteristics (trimmed), goodSubjects,
weakSubjects and personality are all empty, triggering generation sets
the validation error and issues no request; when at least one of the five
is non-empty, the POST /generate-opinions request is issued. -/
theorem generate_requires_input (i : StudentInfo) :
    (trimString i.name = "" ∧ i.goodSubjects = [] ∧ i.weakSubjects = [] ∧
        i.personality = [] ∧ trimString i.characteristics = "" →
      handleGenerate i = .validationError noInputMsg) ∧
    (trimString i.name ≠ "" ∨ i.goodSubjects ≠ [] ∨ i.weakSubjects ≠ [] ∨
        i.personality ≠ [] ∨ trimString i.characteristics ≠ "" →
      ∃ p, handleGenerate i = .postRequest "/generate-opinions" p) := by
  constructor
  · rintro ⟨h1, h2, h3, h4, h5⟩
    have hfalse : hasInput i = false := by
      simp [hasInput, h1, h2, h3, h4, h5]
    simp [handleGenerate, hfalse]
  · intro h
    have htrue : hasInput i = true := by
      simp only [hasInput, Bool.or_eq_true, bne_iff_ne, ne_eq,
        decide_eq_true_eq, gt_iff_lt, List.length_pos]
      tauto
    exact ⟨_, by unfold handleGenerate; rw [if_pos htrue]⟩

/-- Witness for C3: the empty initial form is rejected with the
validation message; selecting 수학 as a good subject makes the request go
out. -/
theorem generate_requires_input_witness :
    handleGenerate initialStudentInfo = .validationError noInputMsg ∧
    ∃ p, handleGenerate (step initialStudentInfo (.toggleGood "수학")) =
      .postRequest "/generate-opinions" p :=
  ⟨(generate_requires_input initialStudentInfo).1 (by decide),
   (generate_requires_input _).2 (by right; left; decide)⟩

/-- C4: After every edit of the target-length field the stored value lies
in [50, 100]; a parseable non-zero numeric input v is stored as
min(max(v, 50), 100), and a non-numeric or empty input stores the default
75. -/
theorem targetLength_clamped (raw : String) :
    50 ≤ targetLengthOnChange raw ∧ targetLengthOnChange raw ≤ 100 ∧
    (∀ v : Int, parseIntJS raw = some v → v ≠ 0 →
      targetLengthOnChange raw = min (max v 50) 100) ∧
    (parseIntJS raw = none → targetLengthOnChange raw = 75) := by
  rcases hp : parseIntJS raw with _ | v
  · refine ⟨?_, ?_, ?_, ?_⟩ <;> simp only [targetLengthOnChange, hp]
    · decide
    · decide
    · intro v hv
      cases hv
    · intro _
      decide
  · by_cases hv0 : v = 0
    · subst hv0
      refine ⟨?_, ?_, ?_, ?_⟩ <;> simp only [targetLengthOnChange, hp]
      · decide
      · decide
      · intro v' hv' hne
        cases hv'
        exact absurd rfl hne
      · intro hnone
        cases hnone
    · refine ⟨?_, ?_, ?_, ?_⟩ <;> simp only [targetLengthOnChange, hp]
      · simp only [if_neg hv0]
        exact le_min (le_max_right _ _) (by norm_num)
      · simp only [if_neg hv0]
        exact min_le_right _ _
      · intro v' hv' _
        cases hv'
        simp only [if_neg hv0]
      · intro hnone
        cases hnone

/-- Witness for C4: input 200 is clamped via min/max, input abc falls
back to the default 75. -/
theorem targetLength_clamped_witness :
    targetLengthOnChange "200" = min (max (200 : Int) 50) 100 ∧
    targetLengthOnChange "abc" = 75 :=
  ⟨(targetLength_clamped "200").2.2.1 200 rfl (by decide),
   (targetLength_clamped "abc").2.2.2 rfl⟩

/-- C7: When fetching the available-models list fails, the selector holds
exactly the static three-entry fallback catalog, in order, and the
degraded-mode error notice is set; on success the reported list is stored
unchanged and the error is cleared. -/
theorem modelSelector_fallback (outcome : Except String (List ModelDescriptor)) :
    (∀ ms, outcome = .ok ms →
      fetchModels outcome = { models := ms, error := none, isLoading := false }) ∧
    (∀ msg, outcome = .error msg →
      (fetchModels outcome).models = fallbackModels ∧
      (fetchModels outcome).error = some msg) ∧
    fallbackModels.map (fun m => m.name) =
      ["gemini-2.5-flash", "gemini-2.5-pro", "gemini-2.5-flash-lite"] := by
  refine ⟨?_, ?_, by decide⟩
  · rintro ms rfl
    rfl
  · rintro msg rfl
    exact ⟨rfl, rfl⟩

/-- Witness for C7: a failed fetch leaves the three fallback models and
the error message; a successful fetch stores the reported list as is. -/
theorem modelSelector_fallback_witness :
    ((fetchModels (.error "network down")).models = fallbackModels ∧
      (fetchModels (.error "network down")).error = some "network down") ∧
    fetchModels (.ok [{ name := "m", fullName := "models/m", displayName := "M" }]) =
      { models := [{ name := "m", fullName := "models/m", displayName := "M" }],
        error := none, isLoading := false } :=
  ⟨(modelSelector_fallback _).2.1 "network down" rfl,
   (modelSelector_fallback _).1 _ rfl⟩

/-- C8: Every request issued through the shared axios instance carries
the instance configuration's fixed 60000 ms (60 second) timeout; no call
site overrides it. -/
theorem api_timeout_bound :
    (∀ path : String, requestTimeoutMs path = 60000) ∧
    apiConfig.timeoutMs = 60000 ∧ 60000 = 60 * 1000 :=
  ⟨fun _ => rfl, rfl, rfl⟩

/-- C9 counterexample: a failed response whose server-provided `detail`
is present but empty (`{"detail": ""}` with status text Bad Request)
surfaces the status text, not the provided detail string — so the claim
that the message is exactly the detail string whenever one is present
fails. -/
theorem interceptor_detail_counterexample :
    (RequestError.mk (some (ErrorResponse.mk (some "") "Bad Request")) true).response
        = some (ErrorResponse.mk (some "") "Bad Request") ∧
    interceptError (RequestError.mk (some (ErrorResponse.mk (some "") "Bad Request")) true)
        = "Bad Request" ∧
    "Bad Request" ≠ "" :=
  ⟨rfl, rfl, by decide⟩

/-- C9 (amended): for a failed response the surfaced message is the
server-provided detail when present and non-empty, else the status text
when non-empty, else the fixed generic message; with no response, the
fixed connection-failure message when a request went out, else the fixed
setup-failure message; the message is always one of these five values,
never the raw payload. -/
theorem interceptor_message_mapping (e : RequestError) :
    (∀ r, e.response = some r →
      (∀ d, r.detail = some d → d ≠ "" → interceptError e = d) ∧
      ((r.detail = none ∨ r.detail = some "") → r.statusText ≠ "" →
        interceptError e = r.statusText) ∧
      ((r.detail = none ∨ r.detail = some "") → r.statusText = "" →
        interceptError e = genericErrorMsg) ∧
      (interceptError e = r.detail.getD "" ∨ interceptError e = r.statusText ∨
        interceptError e = genericErrorMsg)) ∧
    (e.response = none → e.hasRequest = true → interceptError e = connectionErrorMsg) ∧
    (e.response = none → e.hasRequest = false → interceptError e = setupErrorMsg) := by
  refine ⟨?_, ?_, ?_⟩
  · rintro r hr
    refine ⟨?_, ?_, ?_, ?_⟩
    · rintro d hd hne
      simp [interceptError, hr, hd, jsOr, hne]
    · rintro (hd | hd) hst <;>
        simp [interceptError, hr, hd, jsOr, hst]
    · rintro (hd | hd) hst <;>
        simp [interceptError, hr, hd, jsOr, hst]
    · simp only [interceptError, hr, jsOr]
      split
      · split
        · right; right; rfl
        · right; left; rfl
      · left; rfl
  · rintro hr hq
    simp [interceptError, hr, hq]
  · rintro hr hq
    simp [interceptError, hr, hq]

/-- Witness for C9: a non-empty detail is surfaced verbatim, and a
response-less failure with an issued request maps to the fixed
connection-failure message. -/
theorem interceptor_message_mapping_witness :
    interceptError (RequestError.mk (some (ErrorResponse.mk (some "detail text") "ST")) true)
        = "detail text" ∧
    interceptError (RequestError.mk none true) = connectionErrorMsg :=
  ⟨((interceptor_message_mapping _).1 _ rfl).1 "detail text" rfl (by decide),
   (interceptor_message_mapping _).2.1 rfl rfl⟩

/-- C10: copyToClipboard always resolves to a boolean: true exactly when
the Clipboard API path succeeds or the execCommand fallback runs without
throwing and reports success; in every environment — including a missing
Clipboard API, a throwing execCommand, or a rejected writeText — it
returns false rather than raising, and the fallback textarea never
remains attached. -/
theorem copyToClipboard_total (env : ClipboardEnv) :
    ((copyToClipboard env).1 = true ↔
      (env.clipboardApiAvailable = true ∧ env.writeTextSucceeds = true) ∨
      (env.clipboardApiAvailable = false ∧ env.execCommandThrows = false ∧
        env.execCommandReturns = true)) ∧
    (copyToClipboard env).2 = 0 := by
  rcases env with ⟨a, b, c, d⟩
  cases a <;> cases b <;> cases c <;> cases d <;> exact ⟨by decide, by decide⟩

/-- `resolve` computes exactly the claim's first-match-wins chain
`resolveExpected`, failing precisely when the chain is empty. -/
theorem resolve_eq_resolveExpected (requested : String)
    (snapshot : List ModelDescriptor) :
    resolve requested snapshot =
      match resolveExpected requested snapshot with
      | some m => .ok m
      | none => .error .modelUnavailable := by
  unfold resolve resolveExpected
  rcases h1 : snapshot.find? (fun m => m.name == requested) with _ | m1 <;>
    simp only [h1, Option.orElse]
  rcases h2 : snapshot.find? (fun m => m.name == flashModelName) with _ | m2 <;>
    simp only [h2, Option.orElse]
  rcases h3 : snapshot.find? (fun m => m.name == proModelName) with _ | m3 <;>
    simp only [h3, Option.orElse]
  cases snapshot with
  | nil => rfl
  | cons m rest => rfl

/-- The claim's chain yields nothing exactly on the empty snapshot. -/
theorem resolveExpected_eq_none_iff (requested : String)
    (snapshot : List ModelDescriptor) :
    resolveExpected requested snapshot = none ↔ snapshot = [] := by
  constructor
  · intro h
    unfold resolveExpected at h
    rcases h1 : snapshot.find? (fun m => m.name == requested) with _ | m1 <;>
      simp [h1, Option.orElse] at h
    rcases h2 : snapshot.find? (fun m => m.name == flashModelName) with _ | m2 <;>
      simp [h2, Option.orElse] at h
    rcases h3 : snapshot.find? (fun m => m.name == proModelName) with _ | m3 <;>
      simp [h3, Option.orElse] at h
    exact h
  · rintro rfl
    rfl

/-- C2: For every requested name, resolution on a non-empty snapshot
succeeds and follows the first-match-wins order — requested name, else
flash tier, else pro tier, else the first descriptor — and on the empty
snapshot it always fails with ModelUnavailable. -/
theorem resolver_total_fallback (requested : String)
    (snapshot : List ModelDescriptor) :
    (resolve requested snapshot = .error .modelUnavailable ↔ snapshot = []) ∧
    (∀ m, resolve requested snapshot = .ok m ↔
      resolveExpected requested snapshot = some m) ∧
    (snapshot ≠ [] → ∃ m, resolve requested snapshot = .ok m ∧
      resolveExpected requested snapshot = some m) := by
  have he := resolve_eq_resolveExpected requested snapshot
  rcases hx : resolveExpected requested snapshot with _ | m <;> rw [hx] at he <;>
    simp only [] at he
  · have h0 : snapshot = [] := (resolveExpected_eq_none_iff requested snapshot).mp hx
    refine ⟨⟨fun _ => h0, fun _ => he⟩, ?_, fun hne => absurd h0 hne⟩
    intro m
    rw [he]
    exact ⟨(fun h => by cases h), (fun h => by cases h)⟩
  · have h0 : snapshot ≠ [] := by
      intro h
      have hn := (resolveExpected_eq_none_iff requested snapshot).mpr h
      rw [hn] at hx
      cases hx
    refine ⟨?_, ?_, fun _ => ⟨m, he, rfl⟩⟩
    · rw [he]
      exact ⟨(fun h => by cases h), (fun h => absurd h h0)⟩
    · intro m'
      rw [he]
      exact ⟨(fun h => by cases h; rfl), (fun h => by cases h; rfl)⟩

/-- Witness for C2: with a catalog of a lite and a pro entry and an
unknown requested name, resolution never fails and picks the pro-tier
entry; on the empty snapshot it fails with ModelUnavailable. -/
theorem resolver_total_fallback_witness :
    (∃ m, resolve "unknown-model"
        [{ name := "gemini-2.5-flash-lite", fullName := "models/gemini-2.5-flash-lite",
           displayName := "Lite" },
         { name := "gemini-2.5-pro", fullName := "models/gemini-2.5-pro",
           displayName := "Pro" }] = .ok m ∧
      resolveExpected "unknown-model"
        [{ name := "gemini-2.5-flash-lite", fullName := "models/gemini-2.5-flash-lite",
           displayName := "Lite" },
         { name := "gemini-2.5-pro", fullName := "models/gemini-2.5-pro",
           displayName := "Pro" }] = some m) ∧
    (resolve "unknown-model" [] = .error .modelUnavailable ↔ ([] : List ModelDescriptor) = []) :=
  ⟨(resolver_total_fallback "unknown-model" _).2.2 (by decide),
   (resolver_total_fallback "unknown-model" []).1⟩

/-- A tier the chain accepts produced exactly five non-empty trimmed
strings, and the accepted value is that trimmed output. -/
theorem runTier_some {t : String → Option (List String)} {raw : String}
    {l : List String} (h : runTier t raw = some l) :
    l.length = 5 ∧ ∀ s ∈ l, s ≠ "" := by
  unfold runTier at h
  rcases ht : t raw with _ | l0 <;> rw [ht] at h
  · cases h
  · have h' : acceptFive l0 = some l := h
    unfold acceptFive at h'
    by_cases hcond : (l0.map trimString).length = 5 ∧ ∀ s ∈ l0.map trimString, s ≠ ""
    · rw [if_pos hcond] at h'
      cases h'
      exact hcond
    · rw [if_neg hcond] at h'
      cases h'

/-- C1: the opinion pipeline either returns exactly five non-empty
opinion strings or one typed error, never a partial result; parsing
fails with ParseError exactly when no tier yields exactly five non-empty
trimmed strings. -/
theorem pipeline_all_or_nothing :
    (∀ raw l, parse raw = .ok l → l.length = 5 ∧ ∀ s ∈ l, s ≠ "") ∧
    (∀ raw, parse raw = .error (.parseError raw) ↔
      runTier tierStructured raw = none ∧ runTier tierNumbered raw = none ∧
      runTier tierQuoted raw = none ∧ runTier tierLines raw = none) ∧
    (∀ raw e, parse raw = .error e → e = .parseError raw) ∧
    (∀ catalog requested attrs provider l,
      generateOpinions catalog requested attrs provider = .ok l →
        l.length = 5 ∧ ∀ s ∈ l, s ≠ "") := by
  have hok : ∀ raw l, parse raw = .ok l → l.length = 5 ∧ ∀ s ∈ l, s ≠ "" := by
    intro raw l h
    unfold parse at h
    rcases h1 : runTier tierStructured raw with _ | l1 <;> simp only [h1] at h
    case some => cases h; exact runTier_some h1
    rcases h2 : runTier tierNumbered raw with _ | l2 <;> simp only [h2] at h
    case some => cases h; exact runTier_some h2
    rcases h3 : runTier tierQuoted raw with _ | l3 <;> simp only [h3] at h
    case some => cases h; exact runTier_some h3
    rcases h4 : runTier tierLines raw with _ | l4 <;> simp only [h4] at h
    case some => cases h; exact runTier_some h4
    cases h
  refine ⟨hok, ?_, ?_, ?_⟩
  · intro raw
    unfold parse
    rcases h1 : runTier tierStructured raw with _ | l1 <;> simp only [h1]
    case some => simp
    rcases h2 : runTier tierNumbered raw with _ | l2 <;> simp only [h2]
    case some => simp
    rcases h3 : runTier tierQuoted raw with _ | l3 <;> simp only [h3]
    case some => simp
    rcases h4 : runTier tierLines raw with _ | l4 <;> simp only [h4]
    case some => simp
    simp
  · intro raw e h
    unfold parse at h
    rcases h1 : runTier tierStructured raw with _ | l1 <;> simp only [h1] at h
    case some => cases h
    rcases h2 : runTier tierNumbered raw with _ | l2 <;> simp only [h2] at h
    case some => cases h
    rcases h3 : runTier tierQuoted raw with _ | l3 <;> simp only [h3] at h
    case some => cases h
    rcases h4 : runTier tierLines raw with _ | l4 <;> simp only [h4] at h
    case some => cases h
    cases h
    rfl
  · intro catalog requested attrs provider l h
    unfold generateOpinions at h
    rcases hr : resolve requested catalog with e | m <;> simp only [hr] at h
    case error => cases h
    rcases hg : generateWithRetry (provider m.name (buildPrompt attrs)) with k | raw <;>
      simp only [hg] at h
    case error => cases h
    exact hok raw l h

/-- Witness for C1: the numbered-list response parses to five non-empty
opinions, and the one-line response exhausts every tier and fails with
ParseError carrying the raw text. -/
theorem pipeline_all_or_nothing_witness :
    ((["A", "B", "C", "D", "E"] : List String).length = 5 ∧
      ∀ s ∈ (["A", "B", "C", "D", "E"] : List String), s ≠ "") ∧
    parse "only one line" = .error (.parseError "only one line") :=
  ⟨pipeline_all_or_nothing.1 "1. A\n2. B\n3. C\n4. D\n5. E" ["A", "B", "C", "D", "E"] rfl,
   (pipeline_all_or_nothing.2.1 "only one line").mpr ⟨rfl, rfl, rfl, rfl⟩⟩

end TeachingOpinion
